import Mathlib

/-!
Shallow embedding of `src/Gestor.py` (GestorComprasBpt): the receipt
field extractor `parse_ticket_info`, the purchase ledger
(`add_purchase`, `get_stats`, JSON persistence, the recent-purchases
slice) and the image preprocessing step, followed by proofs of the
specification claims about them.

Numbers are modelled by exact rationals (`Rat`); Python machine floats
only ever carry values produced by decimal parsing here and no claim
depends on binary rounding.  Strings are handled as `List Char`
internally, which matches Python's per-character semantics for the
string operations the source uses.
-/

namespace Gestor

/-- ASCII fragment of Python's whitespace class, as used by `str.strip`
and by the regex class `\s` (Unicode spaces are not modelled; no claim
involves them). -/
def isPySpace (c : Char) : Bool :=
  c == ' ' || c == '\t' || c == '\n' || c == '\r' || c == '\x0b' || c == '\x0c'

/-- The digit class `\d` of the regexes (ASCII digits). -/
def isDigitChar (c : Char) : Bool := c.isDigit

/-- Python `str.lower`, modelled on the ASCII letters. -/
def lowerL (l : List Char) : List Char := l.map Char.toLower

/-- Python `str.strip` on a character list. -/
def pyStripL (l : List Char) : List Char :=
  ((l.dropWhile isPySpace).reverse.dropWhile isPySpace).reverse

/-- Python's substring test (the `in` operator) on character lists. -/
def containsSub (needle : List Char) : List Char → Bool
  | [] => needle.isEmpty
  | c :: r => needle.isPrefixOf (c :: r) || containsSub needle r

/-- Maximal run of digits at the head of the input (regex `\d+`):
the matched run and the rest; fails when the head is not a digit. -/
def digits1 (s : List Char) : Option (List Char × List Char) :=
  let d := s.takeWhile isDigitChar
  if d.isEmpty then none else some (d, s.dropWhile isDigitChar)

/-- The gap the total regexes allow between the keyword and the amount:
`[\s:]*\$?\s*`.  Greedy left-to-right consumption coincides with the
backtracking semantics here because each alternative is followed by a
mandatory digit. -/
def skipGap (s : List Char) : List Char :=
  let s1 := s.dropWhile (fun c => isPySpace c || c == ':')
  let s2 := match s1 with
    | '$' :: r => r
    | _ => s1
  s2.dropWhile isPySpace

/-- Regex `\d+[.,]\d+` anchored at the head: digits, one decimal
separator, digits (both runs maximal).  Returns the matched text. -/
def decimalAt (s : List Char) : Option (List Char) :=
  match digits1 s with
  | none => none
  | some (d1, r) =>
    match r with
    | c :: r2 =>
      if c == '.' || c == ',' then
        match digits1 r2 with
        | some (d2, _) => some (d1 ++ c :: d2)
        | none => none
      else none
    | [] => none

/-- Regex `\d+` anchored at the head, returning the matched digits. -/
def intAt (s : List Char) : Option (List Char) :=
  (digits1 s).map (fun p => p.1)

/-- Keyword total pattern anchored at the head: the literal keyword,
the gap `[\s:]*\$?\s*`, then the amount matcher. -/
def kwNumAt (kw : List Char) (num : List Char → Option (List Char))
    (s : List Char) : Option (List Char) :=
  if kw.isPrefixOf s then num (skipGap (s.drop kw.length)) else none

/-- Regex `[\$€]\s*(\d+[.,]\d+)` anchored at the head. -/
def curNumAt (s : List Char) : Option (List Char) :=
  match s with
  | c :: r =>
    if c == '$' || c == '€' then decimalAt (r.dropWhile isPySpace) else none
  | [] => none

/-- Leftmost search: the first position at which the anchored matcher
succeeds (`re.search`). -/
def searchFrom (m : List Char → Option (List Char)) : List Char → Option (List Char)
  | [] => m []
  | c :: r =>
    match m (c :: r) with
    | some v => some v
    | none => searchFrom m r

/-- Total pattern (a): `total[\s:]*\$?\s*(\d+[.,]\d+)`
(src/Gestor.py line 130). -/
def totalPatA : List Char → Option (List Char) := kwNumAt "total".data decimalAt

/-- Total pattern (b): `total[\s:]*\$?\s*(\d+)` (line 131). -/
def totalPatB : List Char → Option (List Char) := kwNumAt "total".data intAt

/-- Total pattern (c): `importe[\s:]*\$?\s*(\d+[.,]\d+)` (line 132). -/
def totalPatC : List Char → Option (List Char) := kwNumAt "importe".data decimalAt

/-- Total pattern (d): `[\$€]\s*(\d+[.,]\d+)` (line 133). -/
def totalPatD : List Char → Option (List Char) := curNumAt

/-- Total pattern (e): `final[\s:]*\$?\s*(\d+[.,]\d+)` (line 134). -/
def totalPatE : List Char → Option (List Char) := kwNumAt "final".data decimalAt

/-- The ordered total pattern list of `parse_ticket_info`
(src/Gestor.py lines 129-135). -/
def totalPatterns : List (List Char → Option (List Char)) :=
  [totalPatA, totalPatB, totalPatC, totalPatD, totalPatE]

/-- The first pattern in the list that matches anywhere in the text wins
(the for-loop with break, lines 137-141). -/
def firstMatch : List (List Char → Option (List Char)) → List Char → Option (List Char)
  | [], _ => none
  | p :: ps, s =>
    match searchFrom p s with
    | some v => some v
    | none => firstMatch ps s

/-- Decimal comma normalised to a decimal point
(line 140: `group(1).replace`). -/
def normalize (v : List Char) : String :=
  String.mk (v.map (fun c => if c == ',' then '.' else c))

/-- Exactly n digits at the head of the input. -/
def takeDigitsN : Nat → List Char → Option (List Char × List Char)
  | 0, s => some ([], s)
  | n + 1, c :: r =>
    if isDigitChar c then
      match takeDigitsN n r with
      | some (d, rest) => some (c :: d, rest)
      | none => none
    else none
  | _ + 1, [] => none

/-- A date-part separator, the character class of slash and hyphen. -/
def isSep (c : Char) : Bool := c == '/' || c == '-'

/-- The fecha pattern of line 117 (one or two digits, a slash-or-hyphen
separator, one or two digits, a separator, two to four digits) anchored
at the head, with greedy-first backtracking over the bounded
repetitions. -/
def fechaAt (s : List Char) : Option (List Char) :=
  [2, 1].findSome? (fun a =>
    match takeDigitsN a s with
    | some (d1, r1) =>
      match r1 with
      | c1 :: r2 =>
        if isSep c1 then
          [2, 1].findSome? (fun b =>
            match takeDigitsN b r2 with
            | some (d2, r3) =>
              match r3 with
              | c2 :: r4 =>
                if isSep c2 then
                  [4, 3, 2].findSome? (fun y =>
                    match takeDigitsN y r4 with
                    | some (d3, _) => some (d1 ++ c1 :: d2 ++ c2 :: d3)
                    | none => none)
                else none
              | [] => none
            | none => none)
        else none
      | [] => none
    | none => none)

/-- The hora pattern of line 123 (one or two digits, a colon, exactly
two digits) anchored at the head. -/
def horaAt (s : List Char) : Option (List Char) :=
  [2, 1].findSome? (fun a =>
    match takeDigitsN a s with
    | some (d1, r1) =>
      match r1 with
      | ':' :: r2 =>
        match takeDigitsN 2 r2 with
        | some (d2, _) => some (d1 ++ ':' :: d2)
        | none => none
      | _ => none
    | none => none)

/-- Python `str.split` on a newline character: `text.split` of line 144. -/
def splitOnNl : List Char → List (List Char)
  | [] => [[]]
  | c :: r =>
    if c == '\n' then [] :: splitOnNl r
    else
      match splitOnNl r with
      | l :: ls => (c :: l) :: ls
      | [] => [[c]]

/-- Skip-words of the vendor scan (src/Gestor.py line 146). -/
def vendorKeywords : List String := ["total", "fecha", "hora", "ticket"]

/-- The vendor line test of line 146: trimmed length over 5 and no
skip-word occurs in the lowercased line. -/
def vendorLineOk (line : List Char) : Bool :=
  decide (5 < (pyStripL line).length) &&
    !(vendorKeywords.any (fun w => containsSub w.data (lowerL line)))

/-- Vendor selection (lines 144-148): the first of the first three
lines passing the test, stripped and truncated to 50 characters. -/
def vendorOf (text : String) : Option String :=
  (((splitOnNl text.data).take 3).find? vendorLineOk).map
    (fun line => String.mk ((pyStripL line).take 50))

/-- The dictionary built by `parse_ticket_info`. -/
structure TicketInfo where
  fecha : Option String
  hora : Option String
  total : Option String
  establecimiento : Option String
  productos : List (String × String)
deriving DecidableEq, Repr

/-- Total extraction (lines 128-141): first matching pattern on the
lowercased text, comma normalised to point. -/
def extractTotal (text : String) : Option String :=
  (firstMatch totalPatterns (lowerL text.data)).map normalize

/-- GestorCompras.parse_ticket_info (src/Gestor.py lines 105-154).
The `productos` field is initialised empty (line 112) and no statement
of the function ever appends to it. -/
def parse_ticket_info (text : String) : TicketInfo where
  fecha := (searchFrom fechaAt text.data).map String.mk
  hora := (searchFrom horaAt text.data).map String.mk
  total := extractTotal text
  establecimiento := vendorOf text
  productos := []

/-- Value of a digit run, most significant first. -/
def digitsVal (ds : List Char) : Nat :=
  ds.foldl (fun a c => a * 10 + (c.toNat - ('0').toNat)) 0

/-- Python `float` on its decimal literal forms: optional surrounding
whitespace, an optional sign, digits with an optional fractional part
(at least one digit overall) and an optional exponent; `none` models a
ValueError.  Special forms (inf, nan, digit-group underscores) are not
modelled; no claim involves them.  The value is kept as an exact
rational. -/
def pyFloat (s : String) : Option Rat :=
  let l := (((s.data.dropWhile isPySpace).reverse.dropWhile isPySpace).reverse)
  let sl : Int × List Char :=
    match l with
    | '+' :: r => (1, r)
    | '-' :: r => (-1, r)
    | _ => (1, l)
  let sgn := sl.1
  let l1 := sl.2
  let ip := l1.takeWhile isDigitChar
  let l2 := l1.dropWhile isDigitChar
  let fl : List Char × List Char :=
    match l2 with
    | '.' :: r => (r.takeWhile isDigitChar, r.dropWhile isDigitChar)
    | _ => ([], l2)
  let fp := fl.1
  let l3 := fl.2
  if ip.isEmpty && fp.isEmpty then none
  else
    let el : Bool × Int × List Char :=
      match l3 with
      | 'e' :: r | 'E' :: r =>
        let es : Int × List Char :=
          match r with
          | '+' :: r2 => (1, r2)
          | '-' :: r2 => (-1, r2)
          | _ => (1, r)
        let ed := es.2.takeWhile isDigitChar
        if ed.isEmpty then (false, 0, es.2)
        else (true, es.1 * (digitsVal ed : Int), es.2.dropWhile isDigitChar)
      | _ => (true, 0, l3)
    if el.1 && el.2.2.isEmpty then
      let mant : Nat := digitsVal ip * 10 ^ fp.length + digitsVal fp
      some (mkRat (sgn * (mant * 10 ^ (el.2.1.toNat) : Nat))
        (10 ^ (fp.length + (-el.2.1).toNat)))
    else none

/-- The total coercion of `add_purchase` (src/Gestor.py line 164):
an absent or falsy (empty) total gives 0; otherwise `float` runs and a
`none` result models the ValueError the surrounding try/except catches. -/
def coerceTotal : Option String → Option Rat
  | none => some 0
  | some s => if s = "" then some 0 else pyFloat s

/-- A persisted purchase record (the dictionary of lines 159-168). -/
structure Compra where
  id : Nat
  fecha_compra : Option String
  hora_compra : Option String
  establecimiento : Option String
  total : Rat
  productos : List (String × String)
  imagen_ticket : String
  fecha_registro : String
deriving DecidableEq, Repr

/-- The in-memory store `self.data` (a dictionary with the single key
compras). -/
structure LedgerData where
  compras : List Compra
deriving DecidableEq, Repr

/-- GestorCompras.add_purchase (src/Gestor.py lines 156-175): builds
the record with id `count + 1` and appends it; when the float coercion
raises, the except clause returns None and the store is untouched.
The registration timestamp and the on-disk write are side effects
modelled by the `now` argument and by `save_data` below. -/
def add_purchase (st : LedgerData) (info : TicketInfo)
    (image_path now : String) : LedgerData × Option Compra :=
  match coerceTotal info.total with
  | none => (st, none)
  | some t =>
    let c : Compra :=
      { id := st.compras.length + 1
        fecha_compra := info.fecha
        hora_compra := info.hora
        establecimiento := info.establecimiento
        total := t
        productos := info.productos
        imagen_ticket := image_path
        fecha_registro := now }
    (⟨st.compras ++ [c]⟩, some c)

/-- The statistics record of get_stats (lines 190-195). -/
structure Stats where
  total_compras : Nat
  gasto_total : Rat
  compra_promedio : Rat
  establecimiento_frecuente : String
deriving DecidableEq, Repr

/-- Occurrence count, `list.count` of Python. -/
def countOcc (xs : List String) (v : String) : Nat :=
  (xs.filter (fun e => e == v)).length

/-- Python `max(iterable, key=k)` over the count key: the fold keeps
the earlier element on ties, so the first maximal element wins. -/
def maxByCount (xs : List String) : List String → Option String
  | [] => none
  | v :: rest =>
    some (rest.foldl (fun best u =>
      if countOcc xs best < countOcc xs u then u else best) v)

/-- First-occurrence deduplication.  Python iterates `set(xs)` in an
implementation-defined (hash) order; the spec fixes the tie-break as
first-seen among the maximal-count vendors, so the model uses
first-occurrence order. -/
def dedupFirst (xs : List String) : List String :=
  xs.foldl (fun acc x => if acc.contains x then acc else acc ++ [x]) []

/-- The vendor list of line 187: establecimiento fields that are truthy
(present and non-empty). -/
def vendorList (cs : List Compra) : List String :=
  (cs.filterMap (fun c => c.establecimiento)).filter (fun e => !(e == ""))

/-- GestorCompras.get_stats (src/Gestor.py lines 177-198): None on an
empty store, otherwise count, summed spend, average and the
most-frequent truthy vendor, with the sentinel when no vendor is
truthy (line 188). -/
def get_stats (st : LedgerData) : Option Stats :=
  match st.compras with
  | [] => none
  | _ =>
    let n := st.compras.length
    let g := (st.compras.map (fun c => c.total)).sum
    let es := vendorList st.compras
    some
      { total_compras := n
        gasto_total := g
        compra_promedio := g / (n : Rat)
        establecimiento_frecuente :=
          match maxByCount es (dedupFirst es) with
          | some v => v
          | none => "N/A" }

/-- The recent-purchases slice: `data` bracket compras bracket `[-5:]`
of TelegramBot.list_compras (src/Gestor.py line 313), generalised from
the hard-coded 5 to n.  For positive n the Python slice takes the last
min(n, length) elements, which is `drop (length - n)`. -/
def recent (n : Nat) (cs : List Compra) : List Compra :=
  cs.drop (cs.length - n)

/-- Outcome of the OCR stage feeding extract_text_from_ticket: the
reader may be uninitialised (line 91), the image may fail to load or
decode (line 95), the engine may raise (line 101), or recognition
succeeds with the joined fragment text (line 99). -/
inductive OcrOutcome where
  | noReader : OcrOutcome
  | badImage : OcrOutcome
  | engineError : String → OcrOutcome
  | success : String → OcrOutcome

/-- Recognition failure: every outcome except success. -/
def OcrOutcome.isFailure : OcrOutcome → Bool
  | .success _ => false
  | _ => true

/-- GestorCompras.extract_text_from_ticket (src/Gestor.py lines
88-103), as the text it returns for each OCR outcome. -/
def extract_text_from_ticket : OcrOutcome → String
  | .noReader => "Error: OCR no inicializado"
  | .badImage => "Error procesando imagen"
  | .engineError m => "Error en OCR: " ++ m
  | .success t => t

/-- TelegramBot.handle_photo (src/Gestor.py lines 234-281), restricted
to its ledger effect: when the extracted text contains Error the
handler replies and returns before parsing (lines 256-258); otherwise
it parses the text and stores the purchase with the constant image
reference of line 263. -/
def handle_photo (st : LedgerData) (ocr : OcrOutcome)
    (now : String) : LedgerData × Option Compra :=
  let text := extract_text_from_ticket ocr
  match containsSub "Error".data text.data with
  | true => (st, none)
  | false => add_purchase st (parse_ticket_info text) "ticket_temp.jpg" now

/-- Vendor selection exactly as claim C2 states it: only the keywords
total, fecha and hora are excluded ("and no other keywords").  To be
compared with `vendorOf`, which embeds the source. -/
def claimVendorC2 (text : String) : Option String :=
  (((splitOnNl text.data).take 3).find? (fun line =>
    decide (5 < (pyStripL line).length) &&
      !(["total", "fecha", "hora"].any (fun w => containsSub w.data (lowerL line))))).map
    (fun line => String.mk ((pyStripL line).take 50))

/-- Vendor selection as claim C2 survives correction: the keyword
ticket is also excluded.  Stated via filter-then-head to be compared
with the find-based `vendorOf` from the source. -/
def amendedVendorC2 (text : String) : Option String :=
  ((((splitOnNl text.data).take 3).filter vendorLineOk).head?).map
    (fun line => String.mk ((pyStripL line).take 50))

/-- Product extraction as claim C3 describes it (the source contains no
such code): per line, a run of letters and spaces followed by a decimal
number; the trimmed letter run of length over 2 is the name and the
number, comma normalised to point, the price. -/
def claimProductsC3 (text : String) : List (String × String) :=
  (splitOnNl text.data).foldr (fun line acc =>
    let letters := line.takeWhile (fun c => c.isAlpha || isPySpace c)
    let rest := line.dropWhile (fun c => c.isAlpha || isPySpace c)
    match decimalAt rest with
    | some num =>
      let name := pyStripL letters
      if 2 < name.length then (String.mk name, normalize num) :: acc else acc
    | none => acc) []

/-- Modelled from the spec: the JSON documents the standard json module
reads and writes for load_data / save_data (src/Gestor.py lines 53-71);
the library itself is outside the repository.  Numbers split into the
integer and floating kinds Python distinguishes on load. -/
inductive J where
  | jnull : J
  | jint : Int → J
  | jnum : Rat → J
  | jstr : String → J
  | jarr : List J → J
  | jobj : List (String × J) → J

/-- Serialisation of an optional string field (None becomes null). -/
def encOptStr : Option String → J
  | none => J.jnull
  | some s => J.jstr s

/-- Serialisation of one name-price product pair. -/
def encProd (p : String × String) : J :=
  J.jarr [J.jstr p.1, J.jstr p.2]

/-- Serialisation of one purchase record, field names and order as in
the dictionary of lines 159-168. -/
def encCompra (c : Compra) : J :=
  J.jobj
    [("id", J.jint c.id),
     ("fecha_compra", encOptStr c.fecha_compra),
     ("hora_compra", encOptStr c.hora_compra),
     ("establecimiento", encOptStr c.establecimiento),
     ("total", J.jnum c.total),
     ("productos", J.jarr (c.productos.map encProd)),
     ("imagen_ticket", J.jstr c.imagen_ticket),
     ("fecha_registro", J.jstr c.fecha_registro)]

/-- GestorCompras.save_data (lines 65-71): the whole store is written
as one document with the single top-level key compras. -/
def save_data (st : LedgerData) : J :=
  J.jobj [("compras", J.jarr (st.compras.map encCompra))]

/-- Reading back an optional string field. -/
def decOptStr : J → Option (Option String)
  | J.jnull => some none
  | J.jstr s => some (some s)
  | _ => none

/-- Reading back a product pair. -/
def decProd : J → Option (String × String)
  | J.jarr [J.jstr a, J.jstr b] => some (a, b)
  | _ => none

/-- Reading back a homogeneous array element by element. -/
def decList (f : J → Option α) : List J → Option (List α)
  | [] => some []
  | j :: r =>
    match f j, decList f r with
    | some a, some as => some (a :: as)
    | _, _ => none

/-- Reading back one purchase record from its serialised shape. -/
def decCompra : J → Option Compra
  | J.jobj
      [("id", J.jint i),
       ("fecha_compra", fj),
       ("hora_compra", hj),
       ("establecimiento", ej),
       ("total", J.jnum t),
       ("productos", J.jarr pj),
       ("imagen_ticket", J.jstr im),
       ("fecha_registro", J.jstr fr)] =>
    match decOptStr fj, decOptStr hj, decOptStr ej, decList decProd pj with
    | some f, some h, some e, some p =>
      some ⟨i.toNat, f, h, e, t, p, im, fr⟩
    | _, _, _, _ => none
  | _ => none

/-- Reading back the whole store document. -/
def decLedger : J → Option LedgerData
  | J.jobj [("compras", J.jarr js)] => (decList decCompra js).map LedgerData.mk
  | _ => none

/-- GestorCompras.load_data (src/Gestor.py lines 53-63): an absent file
(the none case) and any read or parse failure both yield the empty
store. -/
def load_data : Option J → LedgerData
  | none => ⟨[]⟩
  | some j => (decLedger j).getD ⟨[]⟩

/-- Modelled from the spec: a decoded raster frame (height by width,
three 8-bit channels in BGR order), the input the cv2 imread call of
preprocess_image hands on; the cv2 library is outside the repository. -/
structure RawImage where
  h : Nat
  w : Nat
  pix : Nat → Nat → Nat × Nat × Nat

/-- A single-channel raster of the same kind cv2 returns. -/
structure GrayImage where
  h : Nat
  w : Nat
  pix : Nat → Nat → Nat

/-- Modelled from the spec: the standard luminance-weighted grayscale
conversion of the cv2 cvtColor call (line 80), channels taken in BGR
order. -/
def cvtColorGray (r : RawImage) : GrayImage where
  h := r.h
  w := r.w
  pix := fun i j =>
    (299 * (r.pix i j).2.2 + 587 * (r.pix i j).2.1 + 114 * (r.pix i j).1) / 1000

/-- Insertion into a sorted list, for the median. -/
def insertSorted (x : Nat) : List Nat → List Nat
  | [] => [x]
  | y :: r => if x ≤ y then x :: y :: r else y :: insertSorted x r

/-- Insertion sort on naturals. -/
def sortNat (l : List Nat) : List Nat := l.foldr insertSorted []

/-- Index clamped to the valid range (replicated border). -/
def clampI (x : Int) (n : Nat) : Nat :=
  if x < 0 then 0 else if (n : Int) ≤ x then n - 1 else x.toNat

/-- The five-by-five neighbourhood of a pixel with replicated border. -/
def window5 (img : GrayImage) (i j : Nat) : List Nat :=
  (List.range 5).flatMap (fun di =>
    (List.range 5).map (fun dj =>
      img.pix (clampI ((i : Int) + di - 2) img.h) (clampI ((j : Int) + dj - 2) img.w)))

/-- Modelled from the spec: the fixed kernel-size-5 median blur of the
cv2 medianBlur call (line 81): each pixel becomes the median of its
five-by-five neighbourhood. -/
def medianBlur5 (img : GrayImage) : GrayImage where
  h := img.h
  w := img.w
  pix := fun i j => (sortNat (window5 img i j)).getD 12 0

/-- All pixel values of an image, row major. -/
def pixList (img : GrayImage) : List Nat :=
  (List.range img.h).flatMap (fun i =>
    (List.range img.w).map (fun j => img.pix i j))

/-- Between-class variance of the split at threshold t, the quantity
Otsu's method maximises; zero when a class is empty. -/
def betweenVar (ps : List Nat) (t : Nat) : Rat :=
  let c0 := ps.filter (fun p => p ≤ t)
  let c1 := ps.filter (fun p => !(p ≤ t))
  if c0.length = 0 || c1.length = 0 then 0
  else
    let m0 := mkRat (c0.sum : Int) c0.length
    let m1 := mkRat (c1.sum : Int) c1.length
    (mkRat c0.length ps.length) * (mkRat c1.length ps.length) * (m0 - m1) * (m0 - m1)

/-- Modelled from the spec: Otsu's automatic threshold selection, the
global variance-maximising threshold (the cv2 THRESH_OTSU flag of line
82); the first maximising threshold wins. -/
def otsuThreshold (ps : List Nat) : Nat :=
  (List.range 256).foldl (fun best t =>
    if betweenVar ps best < betweenVar ps t then t else best) 0

/-- Modelled from the spec: the binary Otsu thresholding of the cv2
threshold call (line 82, flags THRESH_BINARY plus THRESH_OTSU): pixels
above the selected threshold become 255, the rest 0. -/
def thresholdOtsu (img : GrayImage) : GrayImage :=
  let t := otsuThreshold (pixList img)
  { h := img.h
    w := img.w
    pix := fun i j => if t < img.pix i j then 255 else 0 }

/-- GestorCompras.preprocess_image (src/Gestor.py lines 73-86) on a
valid raster: grayscale, median denoising, Otsu binarisation. -/
def preprocess_image (r : RawImage) : GrayImage :=
  thresholdOtsu (medianBlur5 (cvtColorGray r))

/-- A concrete extractor output used by witnesses. -/
def sampleInfo : TicketInfo :=
  ⟨some "12/05/2024", some "10:30", some "10.5", some "Mercado Central", []⟩

/-- A concrete vendorless record used by witnesses. -/
def sampleCompra (i : Nat) : Compra :=
  ⟨i, none, none, none, 0, [], "img.jpg", "2024-05-12 11:00:00"⟩

/-- A concrete one-pixel raster used by witnesses. -/
def sampleRaw : RawImage := ⟨1, 1, fun _ _ => (0, 0, 0)⟩

theorem find?_eq_filter_head? (p : α → Bool) (l : List α) :
    l.find? p = (l.filter p).head? := by
  induction l with
  | nil => rfl
  | cons a r ih =>
    cases h : p a with
    | true => simp only [List.find?, List.filter, h, List.head?]
    | false =>
      simp only [List.find?, List.filter, h]
      exact ih

theorem decProd_encProd (p : String × String) : decProd (encProd p) = some p := rfl

theorem decList_encList {β : Type} (f : β → J) (g : J → Option β)
    (hfg : ∀ b, g (f b) = some b) :
    ∀ l : List β, decList g (l.map f) = some l := by
  intro l
  induction l with
  | nil => rfl
  | cons a r ih => simp [decList, hfg, ih]

theorem decCompra_encCompra (c : Compra) : decCompra (encCompra c) = some c := by
  obtain ⟨i, f, h, e, t, p, im, fr⟩ := c
  cases f <;> cases h <;> cases e <;>
    simp [encCompra, decCompra, encOptStr, decOptStr,
      decList_encList encProd decProd decProd_encProd]

theorem vendorList_nil_of_all (cs : List Compra)
    (h : ∀ c ∈ cs, c.establecimiento = none ∨ c.establecimiento = some "") :
    vendorList cs = [] := by
  induction cs with
  | nil => rfl
  | cons a r ih =>
    have hr : vendorList r = [] := ih (fun c hc => h c (List.mem_cons_of_mem _ hc))
    rcases h a (List.mem_cons_self a r) with ha | ha <;>
      · simp only [vendorList, List.filterMap_cons, ha]
        exact hr

/-- Claim C1: for every input text the total is determined by trying the
fixed ordered pattern list (total-decimal, total-integer,
importe-decimal, bare-currency-decimal, final-decimal) against the
lowercased text, first match winning, with the decimal comma normalised
to a point; the keyword pattern (a) outranks the bare currency pattern,
so a text holding both a labelled total 10,50 and a bare dollar 99,00
yields 10.50, not 99.00. -/
theorem total_priority_order :
    (∀ text : String,
      (parse_ticket_info text).total =
        (firstMatch totalPatterns (lowerL text.data)).map normalize)
    ∧ (∀ (text : String) (v : List Char),
        searchFrom totalPatA (lowerL text.data) = some v →
        (parse_ticket_info text).total = some (normalize v))
    ∧ (parse_ticket_info "Compra total: 10,50 y propina $99,00").total = some "10.50"
    ∧ (parse_ticket_info "propina $99,00").total = some "99.00" := by
  refine ⟨fun text => rfl, ?_, by decide, by decide⟩
  intro text v h
  have hm : firstMatch totalPatterns (lowerL text.data) = some v := by
    simp only [totalPatterns, firstMatch, h]
  show (firstMatch totalPatterns (lowerL text.data)).map normalize = some (normalize v)
  rw [hm]
  rfl

/-- Witness for C1: the pattern-(a) priority applied at a concrete
input. -/
theorem total_priority_order_witness :
    (parse_ticket_info "Total 2,75").total = some (normalize ['2', ',', '7', '5']) :=
  total_priority_order.2.1 "Total 2,75" ['2', ',', '7', '5'] (by decide)

/-- Counterexample to claim C2: the source also skips lines containing
the keyword ticket (src/Gestor.py line 146), which the claim's
keyword list excludes; on this input the code leaves the vendor absent
while the claimed rule selects the line. -/
theorem vendor_keywords_counterexample :
    (parse_ticket_info "Amigos del Ticket").establecimiento = none ∧
      claimVendorC2 "Amigos del Ticket" = some "Amigos del Ticket" := by decide

/-- Claim C2 as amended: the vendor is the first of at most the first
three lines whose trimmed length exceeds 5 and whose lowercased form
contains none of the keywords total, fecha, hora and ticket, truncated
to 50 characters, and absent when no such line exists. -/
theorem vendor_rule_amended :
    (∀ text : String, (parse_ticket_info text).establecimiento = amendedVendorC2 text)
    ∧ (∀ (text : String) (v : String),
        (parse_ticket_info text).establecimiento = some v → v.length ≤ 50) := by
  constructor
  · intro text
    show vendorOf text = amendedVendorC2 text
    unfold vendorOf amendedVendorC2
    rw [find?_eq_filter_head?]
  · intro text v h
    have h' : vendorOf text = some v := h
    unfold vendorOf at h'
    cases hf : ((splitOnNl text.data).take 3).find? vendorLineOk with
    | none => rw [hf] at h'; exact Option.noConfusion h'
    | some line =>
      rw [hf] at h'
      have h2 : String.mk ((pyStripL line).take 50) = v := Option.some.inj h'
      rw [← h2]
      show ((pyStripL line).take 50).length ≤ 50
      simp

/-- Witness for C2: the truncation bound applied at a concrete input. -/
theorem vendor_rule_amended_witness :
    ("Mercadona SA" : String).length ≤ 50 :=
  vendor_rule_amended.2 "Mercadona SA\nfecha 1/1/24" "Mercadona SA" (by decide)

/-- Counterexample to claim C3: the claimed per-line product rule
yields a product on this input, but the code never fills productos. -/
theorem products_counterexample :
    (parse_ticket_info "coca cola 12,50").productos = [] ∧
      claimProductsC3 "coca cola 12,50" = [("coca cola", "12.50")] := by decide

/-- Claim C3 as amended: parse_ticket_info initialises productos to the
empty list and contains no code appending to it, so the extracted
products list is empty for every input text. -/
theorem products_always_empty :
    ∀ text : String, (parse_ticket_info text).productos = [] :=
  fun _ => rfl

/-- Counterexample to claim C4: a non-numeric non-empty total does not
coerce to 0.0; the float call raises, the except clause swallows it,
and add_purchase returns no record and appends nothing. -/
theorem total_coercion_counterexample :
    add_purchase ⟨[]⟩ ⟨none, none, some "abc", none, []⟩ "img.jpg" "now" = (⟨[]⟩, none) ∧
      coerceTotal (some "abc") ≠ some 0 := by decide

/-- Claim C4 as amended: the coercion never raises to the caller; an
absent or empty total coerces to 0 and a record is still appended,
while a non-empty non-numeric total makes the internal float conversion
fail, so add returns no record and leaves the store unchanged. -/
theorem total_coercion_amended :
    ∀ (st : LedgerData) (info : TicketInfo) (img now : String),
      (info.total = none ∨ info.total = some "" →
        ∃ c, add_purchase st info img now = (⟨st.compras ++ [c]⟩, some c) ∧ c.total = 0)
      ∧ (∀ s, info.total = some s → s ≠ "" → pyFloat s = none →
          add_purchase st info img now = (st, none)) := by
  intro st info img now
  constructor
  · intro h
    have hc : coerceTotal info.total = some 0 := by
      rcases h with h | h <;> rw [h] <;> rfl
    exact ⟨_, by rw [add_purchase, hc], rfl⟩
  · intro s hs hne hf
    have hc : coerceTotal info.total = none := by
      rw [hs]
      show (if s = "" then some 0 else pyFloat s) = none
      rw [if_neg hne, hf]
    rw [add_purchase, hc]

/-- Witness for C4 at concrete inputs: an absent total appends a
zero-total record, a non-numeric total appends nothing. -/
theorem total_coercion_amended_witness :
    (∃ c, add_purchase ⟨[]⟩ ⟨none, none, none, none, []⟩ "i" "t" =
        (⟨LedgerData.compras ⟨[]⟩ ++ [c]⟩, some c) ∧ c.total = 0)
    ∧ add_purchase ⟨[]⟩ ⟨none, none, some "abc", none, []⟩ "i" "t" = (⟨[]⟩, none) :=
  ⟨(total_coercion_amended ⟨[]⟩ ⟨none, none, none, none, []⟩ "i" "t").1 (Or.inl rfl),
   (total_coercion_amended ⟨[]⟩ ⟨none, none, some "abc", none, []⟩ "i" "t").2
     "abc" rfl (by decide) (by decide)⟩

/-- Claim C5: from the empty store, add assigns id count plus one
(here 1), appends the record, and an immediate get_stats reports count
1, spend equal to the record's total, average equal to the spend and
frequent vendor equal to the record's vendor. -/
theorem add_then_stats_singleton :
    ∀ (info : TicketInfo) (img now : String) (v : String) (q : Rat),
      info.establecimiento = some v → v ≠ "" → coerceTotal info.total = some q →
      ∃ c, add_purchase ⟨[]⟩ info img now = (⟨[c]⟩, some c) ∧
        c.id = 1 ∧ c.total = q ∧ c.establecimiento = some v ∧
        get_stats ⟨[c]⟩ = some ⟨1, q, q, v⟩ := by
  intro info img now v q hv hne hq
  refine ⟨⟨1, info.fecha, info.hora, info.establecimiento, q, info.productos, img, now⟩,
    by rw [add_purchase, hq]; rfl, rfl, rfl, hv, ?_⟩
  simp [get_stats, vendorList, dedupFirst, maxByCount, countOcc, hv, hne]

/-- Witness for C5 at a concrete extractor output. -/
theorem add_then_stats_singleton_witness :
    ∃ c, add_purchase ⟨[]⟩ sampleInfo "img.jpg" "2024-05-12 11:00:00" = (⟨[c]⟩, some c) ∧
      c.id = 1 ∧ c.total = mkRat 21 2 ∧ c.establecimiento = some "Mercado Central" ∧
      get_stats ⟨[c]⟩ = some ⟨1, mkRat 21 2, mkRat 21 2, "Mercado Central"⟩ :=
  add_then_stats_singleton sampleInfo "img.jpg" "2024-05-12 11:00:00"
    "Mercado Central" (mkRat 21 2) rfl (by decide) (by decide)

/-- Claim C6: persisting any store and reloading it reproduces the same
ordered record sequence with all fields equal, and loading with the
file absent yields the empty store rather than an error. -/
theorem save_load_roundtrip :
    (∀ st : LedgerData, load_data (some (save_data st)) = st)
    ∧ load_data none = ⟨[]⟩ := by
  refine ⟨?_, rfl⟩
  intro st
  obtain ⟨cs⟩ := st
  simp [save_data, load_data, decLedger,
    decList_encList encCompra decCompra decCompra_encCompra]

/-- Claim C7: a recognition failure (uninitialised reader, unreadable
or undecodable image, engine error) never creates a record and never
changes the store, so every derived statistic is unchanged. -/
theorem recognition_failure_no_record :
    ∀ (st : LedgerData) (ocr : OcrOutcome) (now : String),
      ocr.isFailure = true →
      handle_photo st ocr now = (st, none) ∧
        get_stats (handle_photo st ocr now).1 = get_stats st := by
  intro st ocr now hfail
  have h : handle_photo st ocr now = (st, none) := by
    cases ocr with
    | noReader => rfl
    | badImage => rfl
    | engineError m => obtain ⟨md⟩ := m; rfl
    | success t => simp [OcrOutcome.isFailure] at hfail
  exact ⟨h, by rw [h]⟩

/-- Witness for C7 at a concrete failure. -/
theorem recognition_failure_no_record_witness :
    handle_photo ⟨[]⟩ OcrOutcome.badImage "t" = (⟨[]⟩, none) ∧
      get_stats (handle_photo ⟨[]⟩ OcrOutcome.badImage "t").1 = get_stats ⟨[]⟩ :=
  recognition_failure_no_record ⟨[]⟩ OcrOutcome.badImage "t" rfl

/-- Claim C8: for every store and every n, the recent slice returns the
last min(n, count) records in insertion order (it is a suffix), and on
a three-record store recent 5 returns exactly those three records; as a
total function it never raises for n beyond the count. -/
theorem recent_last_min :
    (∀ (cs : List Compra) (n : Nat),
      (recent n cs).length = min n cs.length ∧ recent n cs <:+ cs)
    ∧ (∀ cs : List Compra, cs.length = 3 → recent 5 cs = cs) := by
  constructor
  · intro cs n
    refine ⟨?_, List.drop_suffix _ _⟩
    simp only [recent, List.length_drop]
    omega
  · intro cs h
    simp [recent, h]

/-- Witness for C8 on a concrete three-record store. -/
theorem recent_last_min_witness :
    recent 5 [sampleCompra 1, sampleCompra 2, sampleCompra 3] =
      [sampleCompra 1, sampleCompra 2, sampleCompra 3] :=
  recent_last_min.2 [sampleCompra 1, sampleCompra 2, sampleCompra 3] rfl

/-- Claim C9: on every valid raster the preprocessing output keeps the
input's height and width and every pixel of it is one of the two
binarisation values 0 and 255. -/
theorem preprocess_binary :
    ∀ r : RawImage,
      (preprocess_image r).h = r.h ∧ (preprocess_image r).w = r.w ∧
        ∀ i j, i < r.h → j < r.w →
          (preprocess_image r).pix i j = 0 ∨ (preprocess_image r).pix i j = 255 := by
  intro r
  refine ⟨rfl, rfl, ?_⟩
  intro i j _ _
  by_cases h : otsuThreshold (pixList (medianBlur5 (cvtColorGray r))) <
      (medianBlur5 (cvtColorGray r)).pix i j
  · right
    simp [preprocess_image, thresholdOtsu, h]
  · left
    simp [preprocess_image, thresholdOtsu, h]

/-- Witness for C9 on a concrete one-pixel raster. -/
theorem preprocess_binary_witness :
    (preprocess_image sampleRaw).pix 0 0 = 0 ∨ (preprocess_image sampleRaw).pix 0 0 = 255 :=
  (preprocess_binary sampleRaw).2.2 0 0 (by decide) (by decide)

/-- Claim C10: on a non-empty store in which no record carries a
non-empty vendor, get_stats is still present and reports the sentinel
N/A as the frequent vendor. -/
theorem stats_na_when_no_vendor :
    ∀ st : LedgerData, st.compras ≠ [] →
      (∀ c ∈ st.compras, c.establecimiento = none ∨ c.establecimiento = some "") →
      ∃ s, get_stats st = some s ∧ s.establecimiento_frecuente = "N/A" := by
  intro st hne hall
  obtain ⟨cs⟩ := st
  have hv : vendorList cs = [] := vendorList_nil_of_all cs hall
  cases cs with
  | nil => exact absurd rfl hne
  | cons a r =>
    refine ⟨_, rfl, ?_⟩
    show (match maxByCount (vendorList (a :: r)) (dedupFirst (vendorList (a :: r))) with
      | some v => v
      | none => "N/A") = "N/A"
    rw [hv]
    rfl

/-- Witness for C10 on a concrete vendorless one-record store. -/
theorem stats_na_when_no_vendor_witness :
    ∃ s, get_stats ⟨[sampleCompra 1]⟩ = some s ∧ s.establecimiento_frecuente = "N/A" :=
  stats_na_when_no_vendor ⟨[sampleCompra 1]⟩ (by decide) (by decide)

end Gestor
